import Mathlib

/-!
Shallow embedding of `src/main.py` (gcf-bigquery-reservation-manager): an HTTP
handler performing report / cleanup / purchase operations against a remote
BigQuery reservation service.  Remote calls are modelled through an abstract
`Client` supplying the outcome of every call; each embedded function returns
the Python function result (or raised exception) together with the ordered
trace of remote calls it issued.
-/

/-- A Python exception value.  `api` models exceptions carrying a `message`
attribute (e.g. `GoogleAPICallError`); `plain` models exceptions without one
(a bare `Exception`, `RuntimeError`, ...); `valueError` models the
`ValueError` raised by `int()` on a non-numeric literal; `attributeError`
models the `AttributeError` raised by accessing a missing attribute. -/
inductive Exc where
  | api (msg : String)
  | plain (desc : String)
  | valueError (literal : String)
  | attributeError (attr : String)
deriving DecidableEq

/-- Whether the exception object has a `message` attribute (`hasattr` on the `message` attribute). -/
def Exc.hasMessage : Exc → Bool
  | .api _ => true
  | _ => false

/-- The `message` attribute of exceptions that have one. -/
def Exc.getMessage : Exc → String
  | .api m => m
  | _ => ""

/-- Python `str(e)`. -/
def Exc.str : Exc → String
  | .api m => m
  | .plain d => d
  | .valueError l => "invalid literal for int() with base 10: \u0027" ++ l ++ "\u0027"
  | .attributeError a => "object has no attribute \u0027" ++ a ++ "\u0027"

/-- A capacity commitment resource (`CapacityCommitment`). -/
structure Commitment where
  name : String
  plan : String
  slot_count : Int
deriving DecidableEq

/-- A reservation resource (`Reservation`). -/
structure Reservation where
  name : String
  slot_capacity : Int
  ignore_idle_slots : Bool
deriving DecidableEq

/-- An assignment resource (`Assignment`). -/
structure Assignment where
  name : String
  job_type : String
  assignee : String
deriving DecidableEq

/-- The retry policy constructed at `src/main.py:204`:
`Retry(deadline=90, predicate=Exception, maximum=2)`.  `predicateAllExceptions`
records that the predicate accepts every exception type. -/
structure Retry where
  deadline : Nat
  predicateAllExceptions : Bool
  maximum : Nat
deriving DecidableEq

/-- The concrete retry policy passed to `client.delete_capacity_commitment`. -/
def commitmentRetry : Retry := { deadline := 90, predicateAllExceptions := true, maximum := 2 }

instance {ε α : Type} [DecidableEq ε] [DecidableEq α] : DecidableEq (Except ε α)
  | .ok a, .ok b =>
      if h : a = b then isTrue (by rw [h]) else isFalse (by intro hh; cases hh; exact h rfl)
  | .ok _, .error _ => isFalse (by intro h; cases h)
  | .error _, .ok _ => isFalse (by intro h; cases h)
  | .error e, .error f =>
      if h : e = f then isTrue (by rw [h]) else isFalse (by intro hh; cases hh; exact h rfl)

/-- A remote call together with the outcome the remote service produced for it. -/
inductive Call where
  | listReservations (parent : String) (result : List Reservation)
  | listAssignments (parent : String) (result : List Assignment)
  | listCommitments (parent : String) (result : List Commitment)
  | createCommitment (parent plan : String) (slot_count : Int) (result : Except Exc Commitment)
  | createReservation (parent reservation_id : String) (slot_capacity : Int)
      (ignore_idle_slots : Bool) (result : Except Exc Reservation)
  | createAssignment (parent job_type assignee : String) (result : Except Exc Assignment)
  | deleteAssignment (name : String) (result : Except Exc Unit)
  | deleteReservation (name : String) (result : Except Exc Unit)
  | deleteCommitment (name : String) (result : Except Exc Unit)
deriving DecidableEq

/-- One issued remote call: the call plus the retry policy the call site passed
(`none` when the call site passes no `retry` argument). -/
structure Event where
  call : Call
  retry : Option Retry
deriving DecidableEq

/-- The abstract remote reservation service: the outcome of every possible call. -/
structure Client where
  list_reservations : String → List Reservation
  list_assignments : String → List Assignment
  list_capacity_commitments : String → List Commitment
  create_capacity_commitment : String → String → Int → Except Exc Commitment
  create_reservation : String → String → Int → Bool → Except Exc Reservation
  create_assignment : String → String → String → Except Exc Assignment
  delete_assignment : String → Except Exc Unit
  delete_reservation : String → Except Exc Unit
  delete_capacity_commitment : String → Except Exc Unit

/-- Result of running an embedded Python function: its value or raised
exception, together with the trace of remote calls it issued. -/
def Res (α : Type) : Type := Except Exc α × List Event

/-- Sequencing: if `x` raised, the rest is skipped; traces concatenate. -/
def rbind {α β : Type} (x : Res α) (f : α → Res β) : Res β :=
  match x with
  | (Except.error e, t) => (Except.error e, t)
  | (Except.ok a, t) => ((f a).1, t ++ (f a).2)

/-- A pure (non-raising, non-calling) step. -/
def rpure {α : Type} (a : α) : Res α := (Except.ok a, [])

/-- `raise e`. -/
def rthrow {α : Type} (e : Exc) : Res α := (Except.error e, [])

/-- `try x except Exception as e: h e`. -/
def rcatch {α : Type} (x : Res α) (h : Exc → Res α) : Res α :=
  match x with
  | (Except.ok a, t) => (Except.ok a, t)
  | (Except.error e, t) => ((h e).1, t ++ (h e).2)

/-- Prepend one already-issued call to the trace of the rest of a function
body (the result of the rest is kept unchanged). -/
def rprepend {α : Type} (ev : Event) (x : Res α) : Res α := (x.1, ev :: x.2)

/-- `client.common_location_path(project_id, location)`. -/
def common_location_path (project_id location : String) : String :=
  "projects/" ++ project_id ++ "/locations/" ++ location

/-- A wall-clock instant, as far as `strftime` needs it. -/
structure DateTime where
  year : Nat
  month : Nat
  day : Nat
  hour : Nat
  minute : Nat
  second : Nat
deriving DecidableEq

/-- Zero-padding to two digits, as `strftime` does for `%m %d %H %M %S`. -/
def pad2 (n : Nat) : String :=
  if n < 10 then "0" ++ toString n else toString n

/-- Zero-padding to four digits, as `strftime` does for `%Y`. -/
def pad4 (n : Nat) : String :=
  if n < 10 then "000" ++ toString n
  else if n < 100 then "00" ++ toString n
  else if n < 1000 then "0" ++ toString n
  else toString n

/-- `datetime.strftime` with format `reservation-%Y%m%d-%H%M%S%M` — note the format
string in the source repeats `%M` (minute) after `%S`. -/
def strftime_reservation (t : DateTime) : String :=
  "reservation-" ++ pad4 t.year ++ pad2 t.month ++ pad2 t.day ++ "-" ++
    pad2 t.hour ++ pad2 t.minute ++ pad2 t.second ++ pad2 t.minute

/-- `string.ascii_lowercase`. -/
def ascii_lowercase : List Char := "abcdefghijklmnopqrstuvwxyz".toList

/-- `get_random_string`: `length` draws of `random.choice(string.ascii_lowercase)`;
`rand i` is the `i`-th draw of the generator, reduced mod 26 to pick a letter. -/
def get_random_string (rand : Nat → Nat) (length : Nat := 8) : String :=
  String.mk ((List.range length).map (fun i => ascii_lowercase.getD (rand i % 26) 'a'))

/-- `get_reservation_name`: timestamp plus `-` plus an 8-character random
lowercase suffix, from the given clock reading and generator state. -/
def get_reservation_name (t : DateTime) (rand : Nat → Nat) : String :=
  strftime_reservation t ++ "-" ++ get_random_string rand

/-- The state of the Python process at module-import time: the clock reading
and generator used when the interpreter evaluated the default arguments of
`create_reservation_and_assignment` (line 219 of `src/main.py`). -/
structure ProcessEnv where
  importTime : DateTime
  importRand : Nat → Nat

/-- The default value of the `reservation_name` parameter of
`create_reservation_and_assignment`.  In Python, a default argument expression
is evaluated once, when the `def` statement executes at module import; every
later call that omits the argument reuses this single value. -/
def defaultReservationName (env : ProcessEnv) : String :=
  get_reservation_name env.importTime env.importRand

/-- `get_reservations`: one `list_reservations` remote call, results collected. -/
def get_reservations (client : Client) (project_id location : String) :
    Res (List Reservation) :=
  (Except.ok (client.list_reservations (common_location_path project_id location)),
   [⟨Call.listReservations (common_location_path project_id location)
       (client.list_reservations (common_location_path project_id location)), none⟩])

/-- `get_assignments`: one `list_assignments` remote call, results collected. -/
def get_assignments (client : Client) (parent : String) : Res (List Assignment) :=
  (Except.ok (client.list_assignments parent),
   [⟨Call.listAssignments parent (client.list_assignments parent), none⟩])

/-- `get_commitments`: one `list_capacity_commitments` remote call, results collected. -/
def get_commitments (client : Client) (project_id location : String) :
    Res (List Commitment) :=
  (Except.ok (client.list_capacity_commitments (common_location_path project_id location)),
   [⟨Call.listCommitments (common_location_path project_id location)
       (client.list_capacity_commitments (common_location_path project_id location)), none⟩])

/-- `delete_assignment`: one remote delete with no retry argument; returns the
log string on success, propagates the remote exception on failure. -/
def delete_assignment (client : Client) (assignment_name : String) : Res String :=
  match client.delete_assignment assignment_name with
  | Except.ok u =>
      (Except.ok ("Deleted assignment " ++ assignment_name),
       [⟨Call.deleteAssignment assignment_name (Except.ok u), none⟩])
  | Except.error e =>
      (Except.error e, [⟨Call.deleteAssignment assignment_name (Except.error e), none⟩])

/-- `delete_reservation`: one remote delete with no retry argument. -/
def delete_reservation (client : Client) (reservation_name : String) : Res String :=
  match client.delete_reservation reservation_name with
  | Except.ok u =>
      (Except.ok ("Deleted reservation " ++ reservation_name),
       [⟨Call.deleteReservation reservation_name (Except.ok u), none⟩])
  | Except.error e =>
      (Except.error e, [⟨Call.deleteReservation reservation_name (Except.error e), none⟩])

/-- `delete_commitment`: one remote delete issued with
`retry=Retry(deadline=90, predicate=Exception, maximum=2)`. -/
def delete_commitment (client : Client) (commitment_name : String) : Res String :=
  match client.delete_capacity_commitment commitment_name with
  | Except.ok u =>
      (Except.ok ("Deleted commitment " ++ commitment_name),
       [⟨Call.deleteCommitment commitment_name (Except.ok u), some commitmentRetry⟩])
  | Except.error e =>
      (Except.error e,
       [⟨Call.deleteCommitment commitment_name (Except.error e), some commitmentRetry⟩])

/-- `purchase_commitment`: create a `CapacityCommitment(plan, slot_count=slots)`
under the scope path; plan defaults to `FLEX`. -/
def purchase_commitment (client : Client) (project_id location : String) (slots : Int)
    (plan : String := "FLEX") : Res Commitment :=
  match client.create_capacity_commitment (common_location_path project_id location)
      plan slots with
  | Except.ok c =>
      (Except.ok c,
       [⟨Call.createCommitment (common_location_path project_id location) plan slots
           (Except.ok c), none⟩])
  | Except.error e =>
      (Except.error e,
       [⟨Call.createCommitment (common_location_path project_id location) plan slots
           (Except.error e), none⟩])

/-- `create_assignment`: create an `Assignment` with job type `QUERY` and
assignee `projects/` plus the project id, under the reservation. -/
def create_assignment (client : Client) (project_id reservation_name : String) :
    Res Assignment :=
  match client.create_assignment reservation_name "QUERY" ("projects/" ++ project_id) with
  | Except.ok a =>
      (Except.ok a,
       [⟨Call.createAssignment reservation_name "QUERY" ("projects/" ++ project_id)
           (Except.ok a), none⟩])
  | Except.error e =>
      (Except.error e,
       [⟨Call.createAssignment reservation_name "QUERY" ("projects/" ++ project_id)
           (Except.error e), none⟩])

/-- `create_reservation_and_assignment`: create the reservation, then try to
create the assignment.  On assignment failure the handler first evaluates
`print(f"ERROR: {e.message}")`: if `e` has no `message` attribute this raises
`AttributeError` inside the handler, so `delete_reservation` is skipped and
the `AttributeError` propagates; otherwise the reservation is deleted
(a failure of that delete propagates instead) and the original `e` re-raised. -/
def create_reservation_and_assignment (client : Client) (project_id location : String)
    (slots : Int) (reservation_name : String) : Res (Reservation × Assignment) :=
  match client.create_reservation (common_location_path project_id location)
      reservation_name slots false with
  | Except.error e =>
      (Except.error e,
       [⟨Call.createReservation (common_location_path project_id location) reservation_name
           slots false (Except.error e), none⟩])
  | Except.ok reservation =>
      rprepend
        ⟨Call.createReservation (common_location_path project_id location) reservation_name
           slots false (Except.ok reservation), none⟩
        (rcatch
          (rbind (create_assignment client project_id reservation.name)
            (fun assignment => rpure (reservation, assignment)))
          (fun e =>
            if e.hasMessage then
              rbind (delete_reservation client reservation.name) (fun _ => rthrow e)
            else
              rthrow (Exc.attributeError "message")))

/-- The per-reservation body of the `for` loop in `report`: a `Reservation ...`
log line followed by one `Assignment ...` line per listed assignment. -/
def report_reservations (client : Client) (rs : List Reservation) : Res (List String) :=
  match rs with
  | [] => rpure []
  | r :: rest =>
      rbind (get_assignments client r.name) (fun asg =>
        rbind (report_reservations client rest) (fun restLog =>
          rpure (("Reservation " ++ r.name) ::
            (asg.map (fun a => "Assignment " ++ a.name) ++ restLog))))

/-- `report`: list reservations (with their assignments) and commitments,
building the log; no create or delete call is issued. -/
def report (client : Client) (project_id location : String) : Res (List String) :=
  rbind (get_reservations client project_id location) (fun rs =>
    rbind (report_reservations client rs) (fun log1 =>
      rbind (get_commitments client project_id location) (fun cs =>
        rpure (log1 ++ cs.map (fun c => "Commitment " ++ c.name)))))

/-- The inner `for` loop of `cleanup`: delete every listed assignment in order,
collecting the log strings. -/
def cleanup_assignments (client : Client) (asg : List Assignment) : Res (List String) :=
  match asg with
  | [] => rpure []
  | a :: rest =>
      rbind (delete_assignment client a.name) (fun s =>
        rbind (cleanup_assignments client rest) (fun restLog => rpure (s :: restLog)))

/-- The outer `for` loop of `cleanup` over reservations: for each reservation,
list and delete its assignments, then delete the reservation itself. -/
def cleanup_reservations (client : Client) (rs : List Reservation) : Res (List String) :=
  match rs with
  | [] => rpure []
  | r :: rest =>
      rbind (get_assignments client r.name) (fun asg =>
        rbind (cleanup_assignments client asg) (fun logA =>
          rbind (delete_reservation client r.name) (fun sR =>
            rbind (cleanup_reservations client rest) (fun restLog =>
              rpure (logA ++ sR :: restLog)))))

/-- The final `for` loop of `cleanup`: delete every listed commitment in order. -/
def cleanup_commitments (client : Client) (cs : List Commitment) : Res (List String) :=
  match cs with
  | [] => rpure []
  | c :: rest =>
      rbind (delete_commitment client c.name) (fun s =>
        rbind (cleanup_commitments client rest) (fun restLog => rpure (s :: restLog)))

/-- `cleanup`: delete every assignment of every reservation, each reservation,
then every commitment, in listing order, returning the log. -/
def cleanup (client : Client) (project_id location : String) : Res (List String) :=
  rbind (get_reservations client project_id location) (fun rs =>
    rbind (cleanup_reservations client rs) (fun log1 =>
      rbind (get_commitments client project_id location) (fun cs =>
        rbind (cleanup_commitments client cs) (fun log2 =>
          rpure (log1 ++ log2)))))

/-- The non-message part of a JSON HTTP response body. -/
inductive Payload where
  | empty
  | log (entries : List String)
  | purchase (commitment reservation assignment : String)
deriving DecidableEq

/-- An HTTP response as built by `make_response(jsonify(...), status)`. -/
structure Response where
  status : Nat
  message : String
  severity : String
  payload : Payload
deriving DecidableEq

/-- `purchase_http`: purchase the commitment, then try reservation+assignment;
on any failure of that inner step, delete the commitment (a failure of that
delete propagates instead) and re-raise the caught exception.  The
`reservation_name` argument is omitted at the call site, so the pre-bound
module-level default `defaultReservationName env` is used. -/
def purchase_http (client : Client) (env : ProcessEnv) (project_id location : String)
    (slots : Int) : Res Response :=
  rbind (purchase_commitment client project_id location slots) (fun commitment =>
    rcatch
      (rbind (create_reservation_and_assignment client project_id location slots
          (defaultReservationName env)) (fun ra =>
        rpure { status := 200,
                message := "Successfully purchased commitment for " ++ toString slots ++
                  " slots in project " ++ project_id ++ " located in " ++ location,
                severity := "info",
                payload := Payload.purchase commitment.name ra.1.name ra.2.name }))
      (fun e =>
        rbind (delete_commitment client commitment.name) (fun _ => rthrow e)))

/-- `report_http`: run `report` and wrap the log in a 200 info response. -/
def report_http (client : Client) (project_id location : String) : Res Response :=
  rbind (report client project_id location) (fun log =>
    rpure { status := 200,
            message := "Successfully ran report in " ++ location ++ " for project " ++
              project_id,
            severity := "info",
            payload := Payload.log log })

/-- `cleanup_http`: run `cleanup` and wrap the log in a 200 info response. -/
def cleanup_http (client : Client) (project_id location : String) : Res Response :=
  rbind (cleanup client project_id location) (fun log =>
    rpure { status := 200,
            message := "Successfully ran cleanup in project " ++ project_id ++
              " located in " ++ location,
            severity := "info",
            payload := Payload.log log })

/-- A JSON value in the `slots` field: an integer or a string. -/
inductive SlotsVal where
  | int (n : Int)
  | str (s : String)
deriving DecidableEq

/-- The numeric value of a nonempty all-digit character list, else `none`. -/
def digitsVal (cs : List Char) : Option Nat :=
  match cs with
  | [] => none
  | _ =>
      if cs.all (fun c => c.isDigit) then
        some (cs.foldl (fun n c => 10 * n + (c.toNat - 48)) 0)
      else none

/-- Python `int(s)` on a string: an optional sign followed by at least one
digit yields the integer; anything else raises `ValueError`. -/
def pyStrToInt (s : String) : Except Exc Int :=
  match s.toList with
  | '-' :: rest =>
      match digitsVal rest with
      | some n => Except.ok (-(n : Int))
      | none => Except.error (Exc.valueError s)
  | '+' :: rest =>
      match digitsVal rest with
      | some n => Except.ok (n : Int)
      | none => Except.error (Exc.valueError s)
  | cs =>
      match digitsVal cs with
      | some n => Except.ok (n : Int)
      | none => Except.error (Exc.valueError s)

/-- Python `int(slots)`: integers pass through, strings are coerced. -/
def pyInt : SlotsVal → Except Exc Int
  | SlotsVal.int n => Except.ok n
  | SlotsVal.str s => pyStrToInt s

/-- The parsed JSON request body, restricted to the fields the handler reads.
A `none` field is absent from the body. -/
structure RequestData where
  project_id : Option String
  location : Option String
  slots : Option SlotsVal
  operation : Option String
deriving DecidableEq

/-- `main_http`: validate the body, default `location` to `EU` and `slots`
to `100`, then dispatch on `operation`.  `int(slots)` is evaluated when the
`purchase` branch builds its call, so a non-coercible `slots` raises there;
the unknown-operation branch returns a 400 whose severity is `info`. -/
def main_http (client : Client) (env : ProcessEnv) (data : Option RequestData) :
    Res Response :=
  match data with
  | none =>
      rpure { status := 400, message := "json request is required",
              severity := "error", payload := Payload.empty }
  | some d =>
      match d.project_id with
      | none =>
          rpure { status := 400, message := "project_id is required in the json request",
                  severity := "error", payload := Payload.empty }
      | some project_id =>
          let location := d.location.getD "EU"
          let slots := d.slots.getD (SlotsVal.int 100)
          match d.operation with
          | none =>
              rpure { status := 200,
                      message := "Available operations are \u0027report\u0027, \u0027cleanup\u0027 and \u0027purchase\u0027",
                      severity := "info", payload := Payload.empty }
          | some op =>
              if op = "report" then report_http client project_id location
              else if op = "cleanup" then cleanup_http client project_id location
              else if op = "purchase" then
                match pyInt slots with
                | Except.error e => rthrow e
                | Except.ok n => purchase_http client env project_id location n
              else
                rpure { status := 400,
                        message := "Unsupported operation \u0027" ++ op ++ "\u0027",
                        severity := "info", payload := Payload.empty }

/-- `handle_exception`: the `functions_framework` error handler — any uncaught
exception becomes a 500 error response, using `e.message` when present and
`str(e)` otherwise. -/
def handle_exception (e : Exc) : Response :=
  if e.hasMessage then
    { status := 500, message := e.getMessage, severity := "error", payload := Payload.empty }
  else
    { status := 500, message := e.str, severity := "error", payload := Payload.empty }

/-- One full invocation of the deployed function: run `main_http` and turn an
uncaught exception into the `handle_exception` 500 response; the remote-call
trace is returned alongside. -/
def serve (client : Client) (env : ProcessEnv) (data : Option RequestData) :
    Response × List Event :=
  match main_http client env data with
  | (Except.ok resp, t) => (resp, t)
  | (Except.error e, t) => (handle_exception e, t)

/-- Is the event a commitment-delete call? -/
def isDeleteCommitment (ev : Event) : Bool :=
  match ev.call with
  | Call.deleteCommitment _ _ => true
  | _ => false

/-- Is the event a reservation-delete call? -/
def isDeleteReservation (ev : Event) : Bool :=
  match ev.call with
  | Call.deleteReservation _ _ => true
  | _ => false

/-- Is the event an assignment-delete call? -/
def isDeleteAssignment (ev : Event) : Bool :=
  match ev.call with
  | Call.deleteAssignment _ _ => true
  | _ => false

/-- Is the event an assignment-create call? -/
def isCreateAssignment (ev : Event) : Bool :=
  match ev.call with
  | Call.createAssignment _ _ _ _ => true
  | _ => false

/-- Is the event a pure listing call (no remote mutation)? -/
def isListCall (ev : Event) : Bool :=
  match ev.call with
  | Call.listReservations _ _ => true
  | Call.listAssignments _ _ => true
  | Call.listCommitments _ _ => true
  | _ => false

/-- Names of reservations successfully created in a trace. -/
def createdReservations : List Event → List String
  | [] => []
  | ⟨Call.createReservation _ _ _ _ (Except.ok r), _⟩ :: rest =>
      r.name :: createdReservations rest
  | _ :: rest => createdReservations rest

/-- Names of reservations successfully deleted in a trace. -/
def deletedReservations : List Event → List String
  | [] => []
  | ⟨Call.deleteReservation n (Except.ok _), _⟩ :: rest => n :: deletedReservations rest
  | _ :: rest => deletedReservations rest

/-- Reservations a trace created and never deleted. -/
def remainingReservations (t : List Event) : List String :=
  (createdReservations t).filter (fun n => decide (n ∉ deletedReservations t))

/-- Names of commitments successfully created in a trace. -/
def createdCommitments : List Event → List String
  | [] => []
  | ⟨Call.createCommitment _ _ _ (Except.ok c), _⟩ :: rest => c.name :: createdCommitments rest
  | _ :: rest => createdCommitments rest

/-- Names of commitments successfully deleted in a trace. -/
def deletedCommitments : List Event → List String
  | [] => []
  | ⟨Call.deleteCommitment n (Except.ok _), _⟩ :: rest => n :: deletedCommitments rest
  | _ :: rest => deletedCommitments rest

/-- Commitments a trace created and never deleted. -/
def remainingCommitments (t : List Event) : List String :=
  (createdCommitments t).filter (fun n => decide (n ∉ deletedCommitments t))

/-- Names of assignments successfully created in a trace. -/
def createdAssignments : List Event → List String
  | [] => []
  | ⟨Call.createAssignment _ _ _ (Except.ok a), _⟩ :: rest => a.name :: createdAssignments rest
  | _ :: rest => createdAssignments rest

/-- Names of assignments successfully deleted in a trace. -/
def deletedAssignments : List Event → List String
  | [] => []
  | ⟨Call.deleteAssignment n (Except.ok _), _⟩ :: rest => n :: deletedAssignments rest
  | _ :: rest => deletedAssignments rest

/-- Assignments a trace created and never deleted. -/
def remainingAssignments (t : List Event) : List String :=
  (createdAssignments t).filter (fun n => decide (n ∉ deletedAssignments t))

/-- The reservation ids requested by the reservation-create calls of a trace,
whatever their outcome. -/
def requestedReservationNames : List Event → List String
  | [] => []
  | ⟨Call.createReservation _ rid _ _ _, _⟩ :: rest => rid :: requestedReservationNames rest
  | _ :: rest => requestedReservationNames rest

/-- Number of assignment-delete calls in a trace. -/
def countDeleteAssignments (t : List Event) : Nat := (t.filter isDeleteAssignment).length

/-- Number of reservation-delete calls in a trace. -/
def countDeleteReservations (t : List Event) : Nat := (t.filter isDeleteReservation).length

/-- Number of commitment-delete calls in a trace. -/
def countDeleteCommitments (t : List Event) : Nat := (t.filter isDeleteCommitment).length

/-- Modelled from the spec: the execution semantics of the external retry
helper (`google.api_core.retry.Retry`, not part of this repository) as §5
describes it — the wrapped call is attempted, any raised exception is treated
as retryable, and at most `maximum` attempts are made in total.  `failing i`
says whether the `i`-th attempt fails; the result is the number of attempts
performed. -/
def retryAttempts (maximum : Nat) (failing : Nat → Bool) : Nat :=
  match maximum with
  | 0 => 0
  | m + 1 => if failing 0 then 1 + retryAttempts m (fun i => failing (i + 1)) else 1

/-- A fixed process state: the module was imported at 2021-06-01 12:00:00 with
a generator that always draws 0 (letter `a`). -/
def testEnv : ProcessEnv :=
  { importTime := { year := 2021, month := 6, day := 1, hour := 12, minute := 0, second := 0 },
    importRand := fun _ => 0 }

/-- A remote service on which creates succeed, deletes succeed, and only the
assignment-create call raises — with an exception that has no `message`
attribute (a bare `RuntimeError`). -/
def c1Client : Client :=
  { list_reservations := fun _ => [],
    list_assignments := fun _ => [],
    list_capacity_commitments := fun _ => [],
    create_capacity_commitment := fun _ plan slots =>
      Except.ok { name := "commitments/c1", plan := plan, slot_count := slots },
    create_reservation := fun _ rid slots ii =>
      Except.ok { name := "reservations/" ++ rid, slot_capacity := slots,
                  ignore_idle_slots := ii },
    create_assignment := fun _ _ _ => Except.error (Exc.plain "assignment failed"),
    delete_assignment := fun _ => Except.ok (),
    delete_reservation := fun _ => Except.ok (),
    delete_capacity_commitment := fun _ => Except.ok () }

/-- A purchase request body. -/
def c1Request : RequestData :=
  { project_id := some "p1", location := none, slots := some (SlotsVal.int 100),
    operation := some "purchase" }

/-- A process as in `testEnv` whose remote service fails exactly the
reservation-create call, with a message-bearing provider error. -/
def c2Client : Client :=
  { c1Client with
    create_reservation := fun _ _ _ _ => Except.error (Exc.api "quota exceeded") }

/-- A remote service on which every create and delete succeeds. -/
def c3Client : Client :=
  { c1Client with
    create_assignment := fun parent _ assignee =>
      Except.ok { name := parent ++ "/assignments/a1", job_type := "QUERY",
                  assignee := assignee } }

/-- A second purchase request differing from `c1Request` in the slot count. -/
def c3RequestB : RequestData :=
  { c1Request with slots := some (SlotsVal.int 50) }

/-- The trace the Teardown Engine produces for one reservation: list its
assignments, delete each in listing order, then delete the reservation. -/
def teardownReservationTrace (client : Client) (r : Reservation) : List Event :=
  ⟨Call.listAssignments r.name (client.list_assignments r.name), none⟩ ::
    ((client.list_assignments r.name).map
      (fun a => ⟨Call.deleteAssignment a.name (Except.ok ()), none⟩) ++
     [⟨Call.deleteReservation r.name (Except.ok ()), none⟩])

/-- A fixed reservation for the concrete teardown scope. -/
def c4Res1 : Reservation :=
  { name := "reservations/r1", slot_capacity := 100, ignore_idle_slots := false }

/-- A second fixed reservation for the concrete teardown scope. -/
def c4Res2 : Reservation :=
  { name := "reservations/r2", slot_capacity := 100, ignore_idle_slots := false }

/-- An assignment child of the given parent. -/
def c4Asg (parent idx : String) : Assignment :=
  { name := parent ++ "/assignments/" ++ idx, job_type := "QUERY", assignee := "projects/p1" }

/-- A fixed commitment for the concrete teardown scope. -/
def c4Comm : Commitment := { name := "commitments/c1", plan := "FLEX", slot_count := 100 }

/-- A remote service whose scope holds two reservations with two assignments
each and one commitment, and on which every delete succeeds. -/
def c4Client : Client :=
  { list_reservations := fun _ => [c4Res1, c4Res2],
    list_assignments := fun parent => [c4Asg parent "a1", c4Asg parent "a2"],
    list_capacity_commitments := fun _ => [c4Comm],
    create_capacity_commitment := fun _ _ _ => Except.error (Exc.api "unused"),
    create_reservation := fun _ _ _ _ => Except.error (Exc.api "unused"),
    create_assignment := fun _ _ _ => Except.error (Exc.api "unused"),
    delete_assignment := fun _ => Except.ok (),
    delete_reservation := fun _ => Except.ok (),
    delete_capacity_commitment := fun _ => Except.ok () }

/-- A request body with a `project_id` and an unknown operation value. -/
def c5Request : RequestData :=
  { project_id := some "p1", location := none, slots := none, operation := some "frobnicate" }

/-- The retry discipline of the source: a commitment-delete call carries the
bounded `commitmentRetry` policy, every other remote call carries none. -/
def RetryDiscipline (t : List Event) : Prop :=
  ∀ ev ∈ t, ev.retry = if isDeleteCommitment ev then some commitmentRetry else none

/-- A cleanup request body. -/
def c6Request : RequestData :=
  { project_id := some "p1", location := none, slots := none, operation := some "cleanup" }

/-- A request body with every field except `project_id`. -/
def c8Request : RequestData :=
  { project_id := none, location := some "US", slots := some (SlotsVal.int 7),
    operation := some "cleanup" }

/-- A purchase request whose slots field is the non-numeric string `abc`. -/
def c9Request : RequestData :=
  { project_id := some "p1", location := none, slots := some (SlotsVal.str "abc"),
    operation := some "purchase" }

/-- A purchase request whose slots field is the numeric string `50`. -/
def c9RequestNum : RequestData :=
  { project_id := some "p1", location := none, slots := some (SlotsVal.str "50"),
    operation := some "purchase" }

/-- A report request with slot count 100. -/
def c10ReqA : RequestData :=
  { project_id := some "p1", location := none, slots := some (SlotsVal.int 100),
    operation := some "report" }

/-- The same report request with a non-coercible slots string. -/
def c10ReqB : RequestData :=
  { project_id := some "p1", location := none, slots := some (SlotsVal.str "oops"),
    operation := some "report" }

/-! ### Theorems -/

/-- C1.  The claim says an assignment-create failure makes the transaction
delete the just-created Reservation, then the Commitment, and re-raise the
original failure, leaving zero created resources.  On the embedded code this
fails: when the assignment-create exception has no `message` attribute, the
handler logging line (`ERROR:` print) raises `AttributeError` before
`delete_reservation` runs, so the Reservation survives, no reservation-delete
call is issued, and the propagated failure is the `AttributeError`, not the
original exception. -/
theorem c1_assignment_failure_rollback_is_skipped :
    (main_http c1Client testEnv (some c1Request)).1 =
      Except.error (Exc.attributeError "message") ∧
    remainingReservations (main_http c1Client testEnv (some c1Request)).2 =
      ["reservations/reservation-20210601-12000000-aaaaaaaa"] ∧
    (main_http c1Client testEnv (some c1Request)).2.filter isDeleteReservation = [] ∧
    (serve c1Client testEnv (some c1Request)).1.status = 500 := by
  decide

/-- C2.  If commitment creation succeeds and reservation creation fails
with exception `e` (and the compensating commitment delete succeeds), the
purchase invocation issues exactly create-commitment, create-reservation,
delete-commitment — the Commitment is deleted before the error propagates,
the original `e` is re-raised unchanged, no assignment-create call is ever
issued, and no commitment created by the transaction remains. -/
theorem c2_reservation_failure_rolls_back_commitment
    (client : Client) (env : ProcessEnv) (p l : String) (slots : Int)
    (c : Commitment) (e : Exc)
    (hc : client.create_capacity_commitment (common_location_path p l) "FLEX" slots =
      Except.ok c)
    (hr : client.create_reservation (common_location_path p l)
      (defaultReservationName env) slots false = Except.error e)
    (hd : client.delete_capacity_commitment c.name = Except.ok ()) :
    purchase_http client env p l slots =
      (Except.error e,
       [⟨Call.createCommitment (common_location_path p l) "FLEX" slots (Except.ok c), none⟩,
        ⟨Call.createReservation (common_location_path p l) (defaultReservationName env)
           slots false (Except.error e), none⟩,
        ⟨Call.deleteCommitment c.name (Except.ok ()), some commitmentRetry⟩]) ∧
    remainingCommitments (purchase_http client env p l slots).2 = [] ∧
    (purchase_http client env p l slots).2.filter isCreateAssignment = [] := by
  have h : purchase_http client env p l slots =
      (Except.error e,
       [⟨Call.createCommitment (common_location_path p l) "FLEX" slots (Except.ok c), none⟩,
        ⟨Call.createReservation (common_location_path p l) (defaultReservationName env)
           slots false (Except.error e), none⟩,
        ⟨Call.deleteCommitment c.name (Except.ok ()), some commitmentRetry⟩]) := by
    simp only [purchase_http, purchase_commitment, create_reservation_and_assignment,
      delete_commitment, hc, hr, hd, rbind, rcatch, rpure, rthrow,
      List.cons_append, List.nil_append, List.append_nil, List.singleton_append]
  refine ⟨h, ?_, ?_⟩ <;> rw [h]
  · simp [remainingCommitments, createdCommitments, deletedCommitments]
  · simp [List.filter, isCreateAssignment]

/-- Witness for C2: the concrete `c2Client` purchase exercises the theorem. -/
theorem c2_witness :
    purchase_http c2Client testEnv "p1" "EU" 100 =
      (Except.error (Exc.api "quota exceeded"),
       [⟨Call.createCommitment (common_location_path "p1" "EU") "FLEX" 100
           (Except.ok { name := "commitments/c1", plan := "FLEX", slot_count := 100 }), none⟩,
        ⟨Call.createReservation (common_location_path "p1" "EU") (defaultReservationName testEnv)
           100 false (Except.error (Exc.api "quota exceeded")), none⟩,
        ⟨Call.deleteCommitment "commitments/c1" (Except.ok ()), some commitmentRetry⟩]) ∧
    remainingCommitments (purchase_http c2Client testEnv "p1" "EU" 100).2 = [] ∧
    (purchase_http c2Client testEnv "p1" "EU" 100).2.filter isCreateAssignment = [] :=
  c2_reservation_failure_rolls_back_commitment c2Client testEnv "p1" "EU" 100
    { name := "commitments/c1", plan := "FLEX", slot_count := 100 }
    (Exc.api "quota exceeded") rfl rfl rfl

/-- C3.  The claim says two distinct purchase attempts never use equal
reservation names because the name is generated freshly per attempt.  On the
embedded code this fails: the `reservation_name` default argument of
`create_reservation_and_assignment` is evaluated once, at module import, and
the call site omits the argument, so two purchase attempts in the same
process request the identical pre-bound name. -/
theorem c3_default_reservation_name_is_pre_bound :
    requestedReservationNames (main_http c3Client testEnv (some c1Request)).2 =
      requestedReservationNames (main_http c3Client testEnv (some c3RequestB)).2 ∧
    requestedReservationNames (main_http c3Client testEnv (some c1Request)).2 =
      [defaultReservationName testEnv] := by
  decide

theorem cleanup_assignments_spec (client : Client) (asg : List Assignment)
    (hda : ∀ n, client.delete_assignment n = Except.ok ()) :
    cleanup_assignments client asg =
      (Except.ok (asg.map (fun a => "Deleted assignment " ++ a.name)),
       asg.map (fun a => ⟨Call.deleteAssignment a.name (Except.ok ()), none⟩)) := by
  induction asg with
  | nil => rfl
  | cons a rest ih =>
      simp only [cleanup_assignments, delete_assignment, hda, rbind, rpure, ih, List.map_cons,
        List.cons_append, List.nil_append, List.append_nil]

theorem cleanup_reservations_spec (client : Client) (rs : List Reservation)
    (hda : ∀ n, client.delete_assignment n = Except.ok ())
    (hdr : ∀ n, client.delete_reservation n = Except.ok ()) :
    cleanup_reservations client rs =
      (Except.ok (rs.flatMap (fun r =>
         (client.list_assignments r.name).map (fun a => "Deleted assignment " ++ a.name) ++
         ["Deleted reservation " ++ r.name])),
       rs.flatMap (teardownReservationTrace client)) := by
  induction rs with
  | nil => rfl
  | cons r rest ih =>
      simp only [cleanup_reservations, get_assignments, delete_reservation, hdr,
        cleanup_assignments_spec client _ hda, ih, rbind, rpure, teardownReservationTrace,
        List.flatMap_cons, List.cons_append, List.nil_append, List.append_nil,
        List.singleton_append, List.append_assoc]

theorem cleanup_commitments_spec (client : Client) (cs : List Commitment)
    (hdc : ∀ n, client.delete_capacity_commitment n = Except.ok ()) :
    cleanup_commitments client cs =
      (Except.ok (cs.map (fun c => "Deleted commitment " ++ c.name)),
       cs.map (fun c => ⟨Call.deleteCommitment c.name (Except.ok ()), some commitmentRetry⟩)) := by
  induction cs with
  | nil => rfl
  | cons c rest ih =>
      simp only [cleanup_commitments, delete_commitment, hdc, rbind, rpure, ih, List.map_cons,
        List.cons_append, List.nil_append, List.append_nil]

theorem filter_deleteAssignment_events (l : List Assignment) :
    List.filter isDeleteAssignment
      (l.map (fun a => (⟨Call.deleteAssignment a.name (Except.ok ()), none⟩ : Event))) =
      l.map (fun a => (⟨Call.deleteAssignment a.name (Except.ok ()), none⟩ : Event)) := by
  induction l with
  | nil => rfl
  | cons a rest ih => simp [List.filter, isDeleteAssignment, ih]

theorem filter_not_deleteReservation_events (l : List Assignment) :
    List.filter isDeleteReservation
      (l.map (fun a => (⟨Call.deleteAssignment a.name (Except.ok ()), none⟩ : Event))) = [] := by
  induction l with
  | nil => rfl
  | cons a rest ih => simp [List.filter, isDeleteReservation, ih]

theorem filter_not_deleteCommitment_events (l : List Assignment) :
    List.filter isDeleteCommitment
      (l.map (fun a => (⟨Call.deleteAssignment a.name (Except.ok ()), none⟩ : Event))) = [] := by
  induction l with
  | nil => rfl
  | cons a rest ih => simp [List.filter, isDeleteCommitment, ih]

theorem countDeleteAssignments_teardown (client : Client) (r : Reservation) :
    countDeleteAssignments (teardownReservationTrace client r) =
      (client.list_assignments r.name).length := by
  simp [countDeleteAssignments, teardownReservationTrace, List.filter_append, List.filter,
    isDeleteAssignment, filter_deleteAssignment_events]

theorem countDeleteAssignments_flatMap (client : Client) (rs : List Reservation) (A : Nat)
    (hA : ∀ r ∈ rs, (client.list_assignments r.name).length = A) :
    countDeleteAssignments (rs.flatMap (teardownReservationTrace client)) = rs.length * A := by
  induction rs with
  | nil => simp [countDeleteAssignments]
  | cons r rest ih =>
      have hr := hA r (List.mem_cons_self r rest)
      have hrest := ih (fun x hm => hA x (List.mem_cons_of_mem _ hm))
      have h1 : countDeleteAssignments ((r :: rest).flatMap (teardownReservationTrace client)) =
          countDeleteAssignments (teardownReservationTrace client r) +
          countDeleteAssignments (rest.flatMap (teardownReservationTrace client)) := by
        simp [countDeleteAssignments, List.filter_append]
      rw [h1, countDeleteAssignments_teardown, hr, hrest, List.length_cons]
      ring

theorem countDeleteReservations_teardown (client : Client) (r : Reservation) :
    countDeleteReservations (teardownReservationTrace client r) = 1 := by
  simp [countDeleteReservations, teardownReservationTrace, List.filter_append, List.filter,
    isDeleteReservation, filter_not_deleteReservation_events]

theorem countDeleteReservations_flatMap (client : Client) (rs : List Reservation) :
    countDeleteReservations (rs.flatMap (teardownReservationTrace client)) = rs.length := by
  induction rs with
  | nil => rfl
  | cons r rest ih =>
      have h1 : countDeleteReservations ((r :: rest).flatMap (teardownReservationTrace client)) =
          countDeleteReservations (teardownReservationTrace client r) +
          countDeleteReservations (rest.flatMap (teardownReservationTrace client)) := by
        simp [countDeleteReservations, List.filter_append]
      rw [h1, countDeleteReservations_teardown, ih, List.length_cons]
      omega

theorem countDeleteCommitments_flatMap (client : Client) (rs : List Reservation) :
    countDeleteCommitments (rs.flatMap (teardownReservationTrace client)) = 0 := by
  induction rs with
  | nil => rfl
  | cons r rest ih =>
      have h1 : countDeleteCommitments ((r :: rest).flatMap (teardownReservationTrace client)) =
          countDeleteCommitments (teardownReservationTrace client r) +
          countDeleteCommitments (rest.flatMap (teardownReservationTrace client)) := by
        simp [countDeleteCommitments, List.filter_append]
      have h2 : countDeleteCommitments (teardownReservationTrace client r) = 0 := by
        simp [countDeleteCommitments, teardownReservationTrace, List.filter_append, List.filter,
          isDeleteCommitment, filter_not_deleteCommitment_events]
      rw [h1, h2, ih]

theorem filter_deleteCommitment_events (l : List Commitment) :
    List.filter isDeleteCommitment
      (l.map (fun c => (⟨Call.deleteCommitment c.name (Except.ok ()),
        some commitmentRetry⟩ : Event))) =
      l.map (fun c => (⟨Call.deleteCommitment c.name (Except.ok ()),
        some commitmentRetry⟩ : Event)) := by
  induction l with
  | nil => rfl
  | cons c rest ih => simp [List.filter, isDeleteCommitment, ih]

theorem filter_commitment_events_noAssignment (l : List Commitment) :
    List.filter isDeleteAssignment
      (l.map (fun c => (⟨Call.deleteCommitment c.name (Except.ok ()),
        some commitmentRetry⟩ : Event))) = [] := by
  induction l with
  | nil => rfl
  | cons c rest ih => simp [List.filter, isDeleteAssignment, ih]

theorem filter_commitment_events_noReservation (l : List Commitment) :
    List.filter isDeleteReservation
      (l.map (fun c => (⟨Call.deleteCommitment c.name (Except.ok ()),
        some commitmentRetry⟩ : Event))) = [] := by
  induction l with
  | nil => rfl
  | cons c rest ih => simp [List.filter, isDeleteReservation, ih]

/-- C4.  A cleanup invocation on a scope listing reservations `rs` (each
with `A` assignments) and commitments `cs` issues exactly `rs.length * A`
assignment deletes, `rs.length` reservation deletes and `cs.length`
commitment deletes; the trace shape shows that each reservation is deleted
after all of its own assignment deletes, and every reservation delete comes
before every commitment delete. -/
theorem c4_cleanup_counts_and_order
    (client : Client) (p l : String) (rs : List Reservation) (cs : List Commitment) (A : Nat)
    (hrs : client.list_reservations (common_location_path p l) = rs)
    (hcs : client.list_capacity_commitments (common_location_path p l) = cs)
    (hA : ∀ r ∈ rs, (client.list_assignments r.name).length = A)
    (hda : ∀ n, client.delete_assignment n = Except.ok ())
    (hdr : ∀ n, client.delete_reservation n = Except.ok ())
    (hdc : ∀ n, client.delete_capacity_commitment n = Except.ok ()) :
    (cleanup client p l).2 =
      ⟨Call.listReservations (common_location_path p l) rs, none⟩ ::
        (rs.flatMap (teardownReservationTrace client) ++
          ⟨Call.listCommitments (common_location_path p l) cs, none⟩ ::
            cs.map (fun c =>
              (⟨Call.deleteCommitment c.name (Except.ok ()), some commitmentRetry⟩ : Event))) ∧
    countDeleteAssignments (cleanup client p l).2 = rs.length * A ∧
    countDeleteReservations (cleanup client p l).2 = rs.length ∧
    countDeleteCommitments (cleanup client p l).2 = cs.length := by
  have h : (cleanup client p l).2 =
      ⟨Call.listReservations (common_location_path p l) rs, none⟩ ::
        (rs.flatMap (teardownReservationTrace client) ++
          ⟨Call.listCommitments (common_location_path p l) cs, none⟩ ::
            cs.map (fun c =>
              (⟨Call.deleteCommitment c.name (Except.ok ()), some commitmentRetry⟩ : Event))) := by
    simp only [cleanup, get_reservations, get_commitments, hrs, hcs,
      cleanup_reservations_spec client rs hda hdr, cleanup_commitments_spec client cs hdc,
      rbind, rpure, List.cons_append, List.nil_append, List.append_nil, List.append_assoc,
      List.singleton_append]
  refine ⟨h, ?_, ?_, ?_⟩ <;> rw [h]
  · simp only [countDeleteAssignments, List.filter_cons, List.filter_append, isDeleteAssignment,
      filter_commitment_events_noAssignment, List.length_append]
    simpa [countDeleteAssignments] using countDeleteAssignments_flatMap client rs A hA
  · simp only [countDeleteReservations, List.filter_cons, List.filter_append, isDeleteReservation,
      filter_commitment_events_noReservation, List.length_append]
    simpa [countDeleteReservations] using countDeleteReservations_flatMap client rs
  · simp only [countDeleteCommitments, List.filter_cons, List.filter_append, isDeleteCommitment,
      filter_deleteCommitment_events, List.length_append]
    simpa [countDeleteCommitments, List.length_map] using countDeleteCommitments_flatMap client rs

/-- Witness for C4: two reservations with two assignments each and one
commitment give 4 assignment deletes, 2 reservation deletes, 1 commitment
delete. -/
theorem c4_witness :
    countDeleteAssignments (cleanup c4Client "p1" "EU").2 = 4 ∧
    countDeleteReservations (cleanup c4Client "p1" "EU").2 = 2 ∧
    countDeleteCommitments (cleanup c4Client "p1" "EU").2 = 1 := by
  have h := c4_cleanup_counts_and_order c4Client "p1" "EU" [c4Res1, c4Res2] [c4Comm] 2
    rfl rfl (by decide) (fun _ => rfl) (fun _ => rfl) (fun _ => rfl)
  exact ⟨h.2.1, h.2.2.1, h.2.2.2⟩

/-- C5 counterexample.  The claim says an unknown operation value yields
status 400 with severity `error`; at this concrete request the handler
returns status 400 with severity `info`. -/
theorem c5_counterexample_unknown_op_severity_info :
    (serve c3Client testEnv (some c5Request)).1.status = 400 ∧
    (serve c3Client testEnv (some c5Request)).1.severity ≠ "error" ∧
    (serve c3Client testEnv (some c5Request)).1.severity = "info" := by
  decide

/-- C5 amended.  For every request body with a `project_id` and an
operation value other than `report`, `cleanup`, `purchase`, the handler
returns HTTP 400 — but, unlike the other error paths, with severity `info`
(like the no-operation informational case) — and makes no remote call. -/
theorem c5_unknown_operation_is_400_info
    (client : Client) (env : ProcessEnv) (d : RequestData) (p op : String)
    (hp : d.project_id = some p) (hop : d.operation = some op)
    (h1 : op ≠ "report") (h2 : op ≠ "cleanup") (h3 : op ≠ "purchase") :
    serve client env (some d) =
      ({ status := 400, message := "Unsupported operation \u0027" ++ op ++ "\u0027",
         severity := "info", payload := Payload.empty }, []) := by
  simp only [serve, main_http, hp, hop, rpure]
  rw [if_neg h1, if_neg h2, if_neg h3]

/-- Witness for the amended C5 at the concrete unknown-operation request. -/
theorem c5_witness :
    serve c3Client testEnv (some c5Request) =
      ({ status := 400,
         message := "Unsupported operation \u0027" ++ "frobnicate" ++ "\u0027",
         severity := "info", payload := Payload.empty }, []) :=
  c5_unknown_operation_is_400_info c3Client testEnv c5Request "p1" "frobnicate" rfl rfl
    (by decide) (by decide) (by decide)

theorem retryDiscipline_nil : RetryDiscipline [] := by
  intro ev hm
  cases hm

theorem retryDiscipline_single {ev : Event}
    (h : ev.retry = if isDeleteCommitment ev then some commitmentRetry else none) :
    RetryDiscipline [ev] := by
  intro x hm
  rcases List.mem_singleton.mp hm with rfl
  exact h

theorem retryDiscipline_append {t1 t2 : List Event}
    (h1 : RetryDiscipline t1) (h2 : RetryDiscipline t2) : RetryDiscipline (t1 ++ t2) := by
  intro ev hm
  rcases List.mem_append.mp hm with h | h
  · exact h1 ev h
  · exact h2 ev h

theorem retryDiscipline_rbind {α β : Type} {x : Res α} {f : α → Res β}
    (hx : RetryDiscipline x.2) (hf : ∀ a, RetryDiscipline (f a).2) :
    RetryDiscipline (rbind x f).2 := by
  rcases x with ⟨r, t⟩
  cases r with
  | error e => exact hx
  | ok a => exact retryDiscipline_append hx (hf a)

theorem retryDiscipline_rcatch {α : Type} {x : Res α} {h : Exc → Res α}
    (hx : RetryDiscipline x.2) (hh : ∀ e, RetryDiscipline (h e).2) :
    RetryDiscipline (rcatch x h).2 := by
  rcases x with ⟨r, t⟩
  cases r with
  | error e => exact retryDiscipline_append hx (hh e)
  | ok a => exact hx

theorem retryDiscipline_rpure {α : Type} (a : α) : RetryDiscipline (rpure a).2 :=
  retryDiscipline_nil

theorem retryDiscipline_rthrow {α : Type} (e : Exc) :
    RetryDiscipline (rthrow e : Res α).2 :=
  retryDiscipline_nil

theorem retryDiscipline_rprepend {α : Type} {ev : Event} {x : Res α}
    (h : ev.retry = if isDeleteCommitment ev then some commitmentRetry else none)
    (hx : RetryDiscipline x.2) : RetryDiscipline (rprepend ev x).2 := by
  intro y hm
  rcases List.mem_cons.mp hm with rfl | hm2
  · exact h
  · exact hx y hm2

theorem retryDiscipline_get_reservations (client : Client) (p l : String) :
    RetryDiscipline (get_reservations client p l).2 :=
  retryDiscipline_single rfl

theorem retryDiscipline_get_assignments (client : Client) (parent : String) :
    RetryDiscipline (get_assignments client parent).2 :=
  retryDiscipline_single rfl

theorem retryDiscipline_get_commitments (client : Client) (p l : String) :
    RetryDiscipline (get_commitments client p l).2 :=
  retryDiscipline_single rfl

theorem retryDiscipline_delete_assignment (client : Client) (n : String) :
    RetryDiscipline (delete_assignment client n).2 := by
  unfold delete_assignment
  cases client.delete_assignment n with
  | ok u => exact retryDiscipline_single rfl
  | error e => exact retryDiscipline_single rfl

theorem retryDiscipline_delete_reservation (client : Client) (n : String) :
    RetryDiscipline (delete_reservation client n).2 := by
  unfold delete_reservation
  cases client.delete_reservation n with
  | ok u => exact retryDiscipline_single rfl
  | error e => exact retryDiscipline_single rfl

theorem retryDiscipline_delete_commitment (client : Client) (n : String) :
    RetryDiscipline (delete_commitment client n).2 := by
  unfold delete_commitment
  cases client.delete_capacity_commitment n with
  | ok u => exact retryDiscipline_single rfl
  | error e => exact retryDiscipline_single rfl

theorem retryDiscipline_purchase_commitment (client : Client) (p l : String) (slots : Int) :
    RetryDiscipline (purchase_commitment client p l slots).2 := by
  unfold purchase_commitment
  cases client.create_capacity_commitment (common_location_path p l) "FLEX" slots with
  | ok c => exact retryDiscipline_single rfl
  | error e => exact retryDiscipline_single rfl

theorem retryDiscipline_create_assignment (client : Client) (p rn : String) :
    RetryDiscipline (create_assignment client p rn).2 := by
  unfold create_assignment
  cases client.create_assignment rn "QUERY" ("projects/" ++ p) with
  | ok a => exact retryDiscipline_single rfl
  | error e => exact retryDiscipline_single rfl

theorem retryDiscipline_create_reservation_and_assignment (client : Client)
    (p l : String) (slots : Int) (rn : String) :
    RetryDiscipline (create_reservation_and_assignment client p l slots rn).2 := by
  unfold create_reservation_and_assignment
  cases client.create_reservation (common_location_path p l) rn slots false with
  | error e => exact retryDiscipline_single rfl
  | ok reservation =>
      refine retryDiscipline_rprepend rfl
        (retryDiscipline_rcatch
          (retryDiscipline_rbind (retryDiscipline_create_assignment client p reservation.name)
            (fun a => retryDiscipline_rpure _))
          (fun e => ?_))
      by_cases hmsg : e.hasMessage = true
      · rw [if_pos hmsg]
        exact retryDiscipline_rbind (retryDiscipline_delete_reservation client reservation.name)
          (fun _ => retryDiscipline_rthrow e)
      · rw [if_neg hmsg]
        exact retryDiscipline_rthrow (Exc.attributeError "message")

theorem retryDiscipline_purchase_http (client : Client) (env : ProcessEnv)
    (p l : String) (slots : Int) :
    RetryDiscipline (purchase_http client env p l slots).2 := by
  unfold purchase_http
  exact retryDiscipline_rbind (retryDiscipline_purchase_commitment client p l slots)
    (fun c => retryDiscipline_rcatch
      (retryDiscipline_rbind
        (retryDiscipline_create_reservation_and_assignment client p l slots
          (defaultReservationName env))
        (fun ra => retryDiscipline_rpure _))
      (fun e => retryDiscipline_rbind (retryDiscipline_delete_commitment client c.name)
        (fun _ => retryDiscipline_rthrow e)))

theorem retryDiscipline_report_reservations (client : Client) (rs : List Reservation) :
    RetryDiscipline (report_reservations client rs).2 := by
  induction rs with
  | nil => exact retryDiscipline_nil
  | cons r rest ih =>
      unfold report_reservations
      exact retryDiscipline_rbind (retryDiscipline_get_assignments client r.name)
        (fun asg => retryDiscipline_rbind ih (fun _ => retryDiscipline_rpure _))

theorem retryDiscipline_report (client : Client) (p l : String) :
    RetryDiscipline (report client p l).2 := by
  unfold report
  exact retryDiscipline_rbind (retryDiscipline_get_reservations client p l)
    (fun rs => retryDiscipline_rbind (retryDiscipline_report_reservations client rs)
      (fun _ => retryDiscipline_rbind (retryDiscipline_get_commitments client p l)
        (fun _ => retryDiscipline_rpure _)))

theorem retryDiscipline_cleanup_assignments (client : Client) (asg : List Assignment) :
    RetryDiscipline (cleanup_assignments client asg).2 := by
  induction asg with
  | nil => exact retryDiscipline_nil
  | cons a rest ih =>
      unfold cleanup_assignments
      exact retryDiscipline_rbind (retryDiscipline_delete_assignment client a.name)
        (fun _ => retryDiscipline_rbind ih (fun _ => retryDiscipline_rpure _))

theorem retryDiscipline_cleanup_reservations (client : Client) (rs : List Reservation) :
    RetryDiscipline (cleanup_reservations client rs).2 := by
  induction rs with
  | nil => exact retryDiscipline_nil
  | cons r rest ih =>
      unfold cleanup_reservations
      exact retryDiscipline_rbind (retryDiscipline_get_assignments client r.name)
        (fun asg => retryDiscipline_rbind (retryDiscipline_cleanup_assignments client asg)
          (fun _ => retryDiscipline_rbind (retryDiscipline_delete_reservation client r.name)
            (fun _ => retryDiscipline_rbind ih (fun _ => retryDiscipline_rpure _))))

theorem retryDiscipline_cleanup_commitments (client : Client) (cs : List Commitment) :
    RetryDiscipline (cleanup_commitments client cs).2 := by
  induction cs with
  | nil => exact retryDiscipline_nil
  | cons c rest ih =>
      unfold cleanup_commitments
      exact retryDiscipline_rbind (retryDiscipline_delete_commitment client c.name)
        (fun _ => retryDiscipline_rbind ih (fun _ => retryDiscipline_rpure _))

theorem retryDiscipline_cleanup (client : Client) (p l : String) :
    RetryDiscipline (cleanup client p l).2 := by
  unfold cleanup
  exact retryDiscipline_rbind (retryDiscipline_get_reservations client p l)
    (fun rs => retryDiscipline_rbind (retryDiscipline_cleanup_reservations client rs)
      (fun _ => retryDiscipline_rbind (retryDiscipline_get_commitments client p l)
        (fun cs => retryDiscipline_rbind (retryDiscipline_cleanup_commitments client cs)
          (fun _ => retryDiscipline_rpure _))))

theorem retryDiscipline_main_http (client : Client) (env : ProcessEnv)
    (data : Option RequestData) :
    RetryDiscipline (main_http client env data).2 := by
  cases data with
  | none => exact retryDiscipline_rpure _
  | some d =>
      obtain ⟨pid, loc, sl, op⟩ := d
      cases pid with
      | none => exact retryDiscipline_rpure _
      | some project_id =>
          cases op with
          | none => exact retryDiscipline_rpure _
          | some op =>
              show RetryDiscipline
                ((if op = "report" then report_http client project_id (loc.getD "EU")
                  else if op = "cleanup" then cleanup_http client project_id (loc.getD "EU")
                  else if op = "purchase" then
                    match pyInt (sl.getD (SlotsVal.int 100)) with
                    | Except.error e => rthrow e
                    | Except.ok n =>
                        purchase_http client env project_id (loc.getD "EU") n
                  else rpure { status := 400,
                               message := "Unsupported operation \u0027" ++ op ++ "\u0027",
                               severity := "info", payload := Payload.empty }) : Res Response).2
              by_cases h1 : op = "report"
              · rw [if_pos h1]
                exact retryDiscipline_rbind
                  (retryDiscipline_report client project_id (loc.getD "EU"))
                  (fun _ => retryDiscipline_rpure _)
              · rw [if_neg h1]
                by_cases h2 : op = "cleanup"
                · rw [if_pos h2]
                  exact retryDiscipline_rbind
                    (retryDiscipline_cleanup client project_id (loc.getD "EU"))
                    (fun _ => retryDiscipline_rpure _)
                · rw [if_neg h2]
                  by_cases h3 : op = "purchase"
                  · rw [if_pos h3]
                    cases pyInt (sl.getD (SlotsVal.int 100)) with
                    | error e => exact retryDiscipline_rthrow e
                    | ok n =>
                        exact retryDiscipline_purchase_http client env project_id
                          (loc.getD "EU") n
                  · rw [if_neg h3]
                    exact retryDiscipline_rpure _

theorem retryAttempts_le (m : Nat) (failing : Nat → Bool) : retryAttempts m failing ≤ m := by
  induction m generalizing failing with
  | zero => exact Nat.le_refl 0
  | succ k ih =>
      unfold retryAttempts
      by_cases h : failing 0 = true
      · rw [if_pos h]
        have := ih (fun i => failing (i + 1))
        omega
      · rw [if_neg h]
        omega

/-- C6.  In every invocation, each commitment-delete remote call is issued
with the bounded retry policy `Retry(deadline=90, predicate=Exception,
maximum=2)` and every other remote call is issued with no retry; the
`delete_commitment` helper always attaches exactly that policy, and under the
spec-modelled retry semantics the policy performs at most 2 attempts (1
retry) whatever the failure pattern. -/
theorem c6_only_commitment_delete_retries (client : Client) (env : ProcessEnv)
    (data : Option RequestData) :
    (∀ ev ∈ (main_http client env data).2,
        ev.retry = if isDeleteCommitment ev then some commitmentRetry else none) ∧
    (∀ n, ∀ ev ∈ (delete_commitment client n).2, ev.retry = some commitmentRetry) ∧
    commitmentRetry.deadline = 90 ∧
    commitmentRetry.predicateAllExceptions = true ∧
    commitmentRetry.maximum = 2 ∧
    (∀ failing : Nat → Bool, retryAttempts commitmentRetry.maximum failing ≤ 2) := by
  refine ⟨retryDiscipline_main_http client env data, ?_, rfl, rfl, rfl, ?_⟩
  · intro n ev hm
    revert hm
    unfold delete_commitment
    cases client.delete_capacity_commitment n with
    | ok u =>
        intro hm
        rcases List.mem_singleton.mp hm with rfl
        rfl
    | error e =>
        intro hm
        rcases List.mem_singleton.mp hm with rfl
        rfl
  · intro failing
    exact retryAttempts_le 2 failing

/-- Witness for C6: the retry discipline evaluated on a concrete cleanup
invocation whose trace contains assignment, reservation and commitment
deletes. -/
theorem c6_witness :
    ((main_http c4Client testEnv (some c6Request)).2.all
      (fun ev => ev.retry == if isDeleteCommitment ev then some commitmentRetry else none)) =
      true := by
  have h := (c6_only_commitment_delete_retries c4Client testEnv (some c6Request)).1
  rw [List.all_eq_true]
  intro ev hm
  rw [beq_iff_eq]
  exact h ev hm

theorem report_reservations_spec (client : Client) (rs : List Reservation) :
    report_reservations client rs =
      (Except.ok (rs.flatMap (fun r =>
         ("Reservation " ++ r.name) ::
           (client.list_assignments r.name).map (fun a => "Assignment " ++ a.name))),
       rs.map (fun r =>
         (⟨Call.listAssignments r.name (client.list_assignments r.name), none⟩ : Event))) := by
  induction rs with
  | nil => rfl
  | cons r rest ih =>
      simp only [report_reservations, get_assignments, ih, rbind, rpure, List.flatMap_cons,
        List.map_cons, List.cons_append, List.nil_append, List.append_nil, List.append_assoc]

/-- C7.  A report invocation returns, without error, one log line per
reservation, per assignment and per commitment in listing order; its remote
trace is exactly the three kinds of listing calls (one reservations listing,
one assignments listing per reservation, one commitments listing) — every
event is a listing, so no create or delete call is issued and remote state is
untouched. -/
theorem c7_report_is_readonly (client : Client) (p l : String) :
    report client p l =
      (Except.ok ((client.list_reservations (common_location_path p l)).flatMap (fun r =>
          ("Reservation " ++ r.name) ::
            (client.list_assignments r.name).map (fun a => "Assignment " ++ a.name)) ++
        (client.list_capacity_commitments (common_location_path p l)).map
          (fun c => "Commitment " ++ c.name)),
       ⟨Call.listReservations (common_location_path p l)
           (client.list_reservations (common_location_path p l)), none⟩ ::
         ((client.list_reservations (common_location_path p l)).map
            (fun r =>
              (⟨Call.listAssignments r.name (client.list_assignments r.name), none⟩ : Event)) ++
          [⟨Call.listCommitments (common_location_path p l)
              (client.list_capacity_commitments (common_location_path p l)), none⟩])) ∧
    (∀ ev ∈ (report client p l).2, isListCall ev = true) := by
  have h : report client p l =
      (Except.ok ((client.list_reservations (common_location_path p l)).flatMap (fun r =>
          ("Reservation " ++ r.name) ::
            (client.list_assignments r.name).map (fun a => "Assignment " ++ a.name)) ++
        (client.list_capacity_commitments (common_location_path p l)).map
          (fun c => "Commitment " ++ c.name)),
       ⟨Call.listReservations (common_location_path p l)
           (client.list_reservations (common_location_path p l)), none⟩ ::
         ((client.list_reservations (common_location_path p l)).map
            (fun r =>
              (⟨Call.listAssignments r.name (client.list_assignments r.name), none⟩ : Event)) ++
          [⟨Call.listCommitments (common_location_path p l)
              (client.list_capacity_commitments (common_location_path p l)), none⟩])) := by
    simp only [report, get_reservations, get_commitments, report_reservations_spec, rbind,
      rpure, List.cons_append, List.nil_append, List.append_nil, List.append_assoc,
      List.singleton_append]
  refine ⟨h, ?_⟩
  have h2 := congrArg Prod.snd h
  rw [h2]
  intro ev hm
  simp only [List.mem_cons, List.mem_append, List.mem_map, List.mem_singleton,
    List.not_mem_nil, or_false] at hm
  rcases hm with rfl | ⟨⟨r, _, rfl⟩ | rfl⟩ <;> rfl

/-- Witness for C7: every event of a concrete report trace is a listing call. -/
theorem c7_witness :
    ((report c4Client "p1" "EU").2.all isListCall) = true := by
  have h := (c7_report_is_readonly c4Client "p1" "EU").2
  rw [List.all_eq_true]
  exact fun ev hm => h ev hm

/-- C8.  A parsed request body without a `project_id` field gets a 400
response with severity `error`, whatever its other fields hold, and the
remote-call trace is empty — the failure is detected before any remote call. -/
theorem c8_missing_project_id_is_400_before_any_call
    (client : Client) (env : ProcessEnv) (d : RequestData)
    (h : d.project_id = none) :
    serve client env (some d) =
      ({ status := 400, message := "project_id is required in the json request",
         severity := "error", payload := Payload.empty }, []) := by
  obtain ⟨pid, loc, sl, op⟩ := d
  replace h : pid = none := h
  subst h
  rfl

/-- Witness for C8 at a concrete body that has other fields but no project id. -/
theorem c8_witness :
    serve c4Client testEnv (some c8Request) =
      ({ status := 400, message := "project_id is required in the json request",
         severity := "error", payload := Payload.empty }, []) :=
  c8_missing_project_id_is_400_before_any_call c4Client testEnv c8Request rfl

/-- C9.  For a purchase request whose `slots` field is a string, the
handler applies `int(slots)` and nothing else: if the string is not a valid
integer literal the resulting `ValueError` escapes before any remote call
(empty trace) and surfaces as the generic uncaught-exception 500 error
response, not a 400; if the string parses (e.g. `"50"`), the coerced integer
is passed straight to the purchase operation. -/
theorem c9_slots_string_coercion (client : Client) (env : ProcessEnv) (d : RequestData)
    (p s : String)
    (hp : d.project_id = some p) (hop : d.operation = some "purchase")
    (hs : d.slots = some (SlotsVal.str s)) :
    (∀ e, pyStrToInt s = Except.error e →
       serve client env (some d) = (handle_exception e, []) ∧
       (handle_exception e).status = 500 ∧ (handle_exception e).severity = "error") ∧
    (∀ n, pyStrToInt s = Except.ok n →
       main_http client env (some d) = purchase_http client env p (d.location.getD "EU") n) := by
  obtain ⟨pid, loc, sl, op⟩ := d
  replace hp : pid = some p := hp
  replace hop : op = some "purchase" := hop
  replace hs : sl = some (SlotsVal.str s) := hs
  subst hp
  subst hop
  subst hs
  have hm : main_http client env
      (some ⟨some p, loc, some (SlotsVal.str s), some "purchase"⟩) =
      (match pyStrToInt s with
       | Except.error e => rthrow e
       | Except.ok n => purchase_http client env p (loc.getD "EU") n) := rfl
  constructor
  · intro e he
    refine ⟨?_, ?_, ?_⟩
    · simp only [serve, hm, he, rthrow]
    · cases e <;> rfl
    · cases e <;> rfl
  · intro n hn
    rw [hm, hn]

/-- Witness for C9: `abc` gives the uncaught-`ValueError` 500 path with no
remote call; `50` is coerced to the integer 50 and dispatched to purchase. -/
theorem c9_witness :
    (serve c4Client testEnv (some c9Request) =
      (handle_exception (Exc.valueError "abc"), [])) ∧
    (main_http c4Client testEnv (some c9RequestNum) =
      purchase_http c4Client testEnv "p1" "EU" 50) :=
  ⟨((c9_slots_string_coercion c4Client testEnv c9Request "p1" "abc" rfl rfl rfl).1
      (Exc.valueError "abc") rfl).1,
   (c9_slots_string_coercion c4Client testEnv c9RequestNum "p1" "50" rfl rfl rfl).2 50 rfl⟩

/-- C10.  Two request bodies that agree on `project_id`, `location` and
`operation`, where the operation is absent, `report` or `cleanup`, produce
identical behaviour whatever their `slots` fields hold: the same remote-call
trace and the same response against any remote service.  The slot count
influences no operation other than purchase. -/
theorem c10_slots_influences_only_purchase
    (client : Client) (env : ProcessEnv) (d1 d2 : RequestData)
    (hp : d1.project_id = d2.project_id) (hl : d1.location = d2.location)
    (hop : d1.operation = d2.operation)
    (hor : d1.operation = none ∨ d1.operation = some "report" ∨
      d1.operation = some "cleanup") :
    serve client env (some d1) = serve client env (some d2) := by
  obtain ⟨p1, l1, s1, o1⟩ := d1
  obtain ⟨p2, l2, s2, o2⟩ := d2
  replace hp : p1 = p2 := hp
  replace hl : l1 = l2 := hl
  replace hop : o1 = o2 := hop
  subst hp
  subst hl
  subst hop
  rcases hor with h | h | h <;> replace h : o1 = _ := h <;> subst h <;> cases p1 <;> rfl

/-- Witness for C10: a report request behaves identically whether `slots` is
the integer 100 or a non-numeric string. -/
theorem c10_witness :
    serve c4Client testEnv (some c10ReqA) = serve c4Client testEnv (some c10ReqB) :=
  c10_slots_influences_only_purchase c4Client testEnv c10ReqA c10ReqB rfl rfl rfl
    (Or.inr (Or.inl rfl))
